import Mathlib

/-!
Shallow embedding of `consensus_health_checker.py` (the cross-document
consistency check engine of the doctor repository) together with proofs about
its suppression manager, notification routing, rule engine loop and individual
check rules. Python dictionaries are modelled as association lists (first key
match wins on lookup, in-place value replacement on write, insertion order
preserved), wall-clock timestamps as integers (Unix seconds), and a Python
function that can raise an exception returns an `Option`/`Except` value where
`none`/`error` is the escaping exception.
-/

namespace ConsensusHealth

/-- Severity levels, `Runlevel` in the source (NOTICE < WARNING < ERROR). -/
inductive Runlevel
  | NOTICE
  | WARNING
  | ERROR
deriving DecidableEq

/-- A problem to be reported at the end of the run (`class Issue`). The Python
constructor keeps the keyword arguments in `_attr` (attribute values are
rendered to strings here) and the `to` keyword argument additionally in
`_authorities`, modelled as the separate `authorities` field. -/
structure Issue where
  runlevel : Runlevel
  template : String
  attrs : List (String × String)
  authorities : List String
deriving DecidableEq

/-- First-match lookup in an association list (a Python `dict` read; `none` is
a missing key). -/
def lookupKey {β : Type} : List (String × β) → String → Option β
  | [], _ => none
  | (k', v) :: rest, k => if k' = k then some v else lookupKey rest k

/-- Python `dict` assignment: replace the value of an existing key in place,
or append a fresh binding at the end (dicts preserve insertion order). -/
def setKey {β : Type} : List (String × β) → String → β → List (String × β)
  | [], k, v => [(k, v)]
  | (k', v') :: rest, k, v =>
    if k' = k then (k', v) :: rest else (k', v') :: setKey rest k v

/-- One piece of a Python format string: literal text or a named `\x7bkey\x7d`
substitution. -/
inductive Fmt
  | lit (s : String)
  | param (k : String)
deriving DecidableEq

/-- `str.replace(' ', '_')` as the suppression keys use it: every space
becomes an underscore. -/
def underscore (s : String) : String :=
  ⟨s.data.map (fun c => if c = ' ' then '_' else c)⟩

/-- Value of a digit string, `none` on an empty list or a non-digit. -/
def digitsToNat : List Char → Nat → Option Nat
  | [], acc => some acc
  | c :: rest, acc =>
    if c.isDigit then digitsToNat rest (acc * 10 + (c.toNat - 48)) else none

/-- Python's `int(s)` on the strings the configuration can carry: an optional
leading minus sign followed by at least one digit (the whitespace tolerance of
Python's `int` is not modelled); `none` is the `ValueError`. -/
def pyInt (s : String) : Option Int :=
  match s.data with
  | [] => none
  | ['-'] => none
  | '-' :: ds => (digitsToNat ds 0).map (fun n => -(n : Int))
  | ds => (digitsToNat ds 0).map (fun n => (n : Int))

/-- Python `str.format(**attr)`: concatenation of the pieces, substituting
attribute values; `none` models the `KeyError` raised on a missing key. -/
def formatTemplate : List Fmt → List (String × String) → Option String
  | [], _ => some ""
  | Fmt.lit s :: rest, attrs => (formatTemplate rest attrs).map (fun r => s ++ r)
  | Fmt.param k :: rest, attrs =>
    match lookupKey attrs k with
    | none => none
    | some v => (formatTemplate rest attrs).map (fun r => v ++ r)

/-- The slice of `CONFIG` these checks consult: the message templates
(`msg.*`) and the per-template suppression durations (`suppression.*`, raw
strings parsed with Python's `int`). -/
structure Config where
  msg : List (String × List Fmt)
  suppression : List (String × String)

/-- `Issue.get_message`: renders the template with the issue's attributes; a
missing template or a failing substitution is logged and degrades to the empty
string. -/
def get_message (cfg : Config) (i : Issue) : String :=
  match lookupKey cfg.msg i.template with
  | some parts => (formatTemplate parts i.attrs).getD ""
  | none => ""

/-- Helper for the volatile-data branches of `Issue.get_suppression_key`:
`CONFIG['msg'][template].format(**attr)` with the given attribute overrides
applied first, spaces replaced by underscores. Unlike `get_message` this
access is not guarded, so a missing template or attribute raises (`none`). -/
def keyFromOverride (cfg : Config) (i : Issue) (upd : List (String × String)) : Option String :=
  match lookupKey cfg.msg i.template with
  | none => none
  | some parts =>
    (formatTemplate parts (upd.foldl (fun acc kv => setKey acc kv.1 kv.2) i.attrs)).map
      (fun s => underscore s)

/-- `Issue.get_suppression_key`: for the five templates carrying volatile data
the key is the message rendered with those attributes zeroed/blanked; every
other template keys on the rendered message (which never raises). -/
def get_suppression_key (cfg : Config) (i : Issue) : Option String :=
  if i.template = "TOO_MANY_UNMEASURED_RELAYS" then
    keyFromOverride cfg i [("unmeasured", "0"), ("total", "0"), ("percentage", "0")]
  else if i.template = "BANDWIDTH_AUTHORITIES_OUT_OF_SYNC" then
    keyFromOverride cfg i [("authorities", "")]
  else if i.template = "LATENCY" then
    keyFromOverride cfg i
      [("authority", ""), ("time_taken", ""), ("median_time", ""), ("authority_times", "")]
  else if i.template = "CLOCK_SKEW" then
    keyFromOverride cfg i [("authority", ""), ("difference", "")]
  else if i.template = "FLAG_COUNT_DIFFERS" then
    keyFromOverride cfg i [("consensus_count", "0"), ("vote_count", "0")]
  else
    some (underscore (get_message cfg i))

/-- The severity-based default of `Issue.get_suppression_duration`:
NOTICE one day, WARNING four hours, no suppression for errors. -/
def defaultDuration : Runlevel → Int
  | Runlevel.NOTICE => 24
  | Runlevel.WARNING => 4
  | Runlevel.ERROR => 0

/-- `Issue.get_suppression_duration` (hours): an explicit per-template
configuration value if present and parseable as an integer; a `ValueError`
from `int` is logged and control falls through to the severity default. -/
def get_suppression_duration (cfg : Config) (i : Issue) : Int :=
  match lookupKey cfg.suppression i.template with
  | some raw =>
    match pyInt raw with
    | some n => n
    | none => defaultDuration i.runlevel
  | none => defaultDuration i.runlevel

/-- The persisted `last_notified` store: suppression key to Unix timestamp. -/
abbrev Store := List (String × Int)

/-- `is_rate_limited(issue)`: the suppression key is computed first (`none`
models its exception escaping), a zero duration is never suppressed, otherwise
the issue is suppressed while `3600 * hours + 1800` seconds have not yet
elapsed since the stored timestamp (0 when the key is absent). -/
def is_rate_limited (cfg : Config) (store : Store) (now : Int) (i : Issue) : Option Bool :=
  match get_suppression_key cfg i with
  | none => none
  | some key =>
    let hours := get_suppression_duration cfg i
    if hours = 0 then some false
    else
      let last_seen := (lookupKey store key).getD 0
      let suppression_time := 3600 * hours + 1800
      some (decide (0 < suppression_time - (now - last_seen)))

/-- `rate_limit_notice(issue)`: records the current timestamp under the
issue's key, skipped entirely for zero-duration issues. -/
def rate_limit_notice (cfg : Config) (store : Store) (now : Int) (i : Issue) : Option Store :=
  match get_suppression_key cfg i with
  | none => none
  | some key =>
    if get_suppression_duration cfg i = 0 then some store
    else some (setKey store key now)

/-- String form of a runlevel, as interpolated by `Issue.__str__`. -/
def runlevelStr : Runlevel → String
  | Runlevel.NOTICE => "NOTICE"
  | Runlevel.WARNING => "WARNING"
  | Runlevel.ERROR => "ERROR"

/-- `Issue.__str__`: `"<runlevel>: <message>"`. -/
def issueStr (cfg : Config) (i : Issue) : String :=
  runlevelStr i.runlevel ++ ": " ++ get_message cfg i

/-- The suppression scan in `main`: issues are checked in order until one is
found that is not rate limited; `none` models `is_rate_limited` raising. -/
def is_all_suppressed (cfg : Config) (store : Store) (now : Int) : List Issue → Option Bool
  | [] => some true
  | i :: rest =>
    match is_rate_limited cfg store now i with
    | none => none
    | some false => some false
    | some true => is_all_suppressed cfg store now rest

/-- The notification decision in `main`: when at least one issue is not rate
limited, the message body is composed from the entire `issues` list (the
suppressed issues are not filtered out); otherwise no message is sent. -/
def surviving_notification (cfg : Config) (store : Store) (now : Int)
    (issues : List Issue) : Option (List Issue) :=
  match is_all_suppressed cfg store now issues with
  | some false => some issues
  | _ => none

/-- The body handed to `util.send` in `main`:
`'\n'.join(map(str, issues))` over the issues of `surviving_notification`. -/
def notification_body (cfg : Config) (store : Store) (now : Int)
    (issues : List Issue) : Option String :=
  (surviving_notification cfg store now issues).map
    (fun picked => String.intercalate "\n" (picked.map (issueStr cfg)))

/-- The collection loop of `run_checks`: each checker of the fixed ordered
list is applied to the documents in turn and its issues appended; an exception
raised by a checker (`Except.error`) propagates out of the loop, discarding
the issues collected so far and never reaching the remaining checkers. -/
def run_checks_loop {α : Type} (checkers : List (α → Except String (List Issue)))
    (docs : α) : Except String (List Issue) :=
  match checkers with
  | [] => Except.ok []
  | c :: rest =>
    match c docs with
    | Except.error e => Except.error e
    | Except.ok issues =>
      match run_checks_loop rest docs with
      | Except.error e => Except.error e
      | Except.ok more => Except.ok (issues ++ more)

/-- The issue `_get_documents` constructs for a failed fetch
(`AUTHORITY_UNAVAILABLE`, line 976 of the source): always ERROR severity. -/
def mkAuthorityUnavailable (fetch_type authority url err : String) : Issue :=
  ⟨Runlevel.ERROR, "AUTHORITY_UNAVAILABLE",
    [("fetch_type", fetch_type), ("authority", authority), ("url", url), ("error", err)],
    [authority]⟩

/-- The issue `unmeasured_relays` constructs (line 627 of the source):
`unmeasured`, `total` and `percentage` are the volatile counters. -/
def mkUnmeasuredIssue (authority : String) (unmeasured total percentage : Nat) : Issue :=
  ⟨Runlevel.NOTICE, "TOO_MANY_UNMEASURED_RELAYS",
    [("authority", authority), ("unmeasured", toString unmeasured),
     ("total", toString total), ("percentage", toString percentage)],
    [authority]⟩

/-- Seconds per day, for `datetime.timedelta(days = n)` comparisons. -/
def daySecs : Int := 86400

/-- The per-vote body of `certificate_expiration`: the vote's own certificate
expiry (Unix seconds) is classified against the current time, narrowest window
first; at most one tier fires. The `authority` attribute is the
`"<nickname> (<expiry>)"` label (the source's `strftime` rendering of the
expiry is abstracted to its numeric form). -/
def checkCert (now : Int) (entry : String × Int) : List Issue :=
  let authority := entry.1
  let expires := entry.2
  let label := authority ++ " (" ++ toString expires ++ ")"
  if expires - now ≤ 7 * daySecs then
    [⟨Runlevel.WARNING, "CERTIFICATE_ABOUT_TO_EXPIRE",
      [("duration", "week"), ("authority", label)], [authority]⟩]
  else if expires - now ≤ 14 * daySecs then
    [⟨Runlevel.WARNING, "CERTIFICATE_ABOUT_TO_EXPIRE",
      [("duration", "two weeks"), ("authority", label)], [authority]⟩]
  else if expires - now ≤ 21 * daySecs then
    [⟨Runlevel.NOTICE, "CERTIFICATE_ABOUT_TO_EXPIRE",
      [("duration", "three weeks"), ("authority", label)], [authority]⟩]
  else []

/-- `certificate_expiration`: one classification per vote, where a vote is
represented by its authority nickname and the expiry timestamp of
`vote.directory_authorities[0].key_certificate.expires`. -/
def certificate_expiration (now : Int) (votes : List (String × Int)) : List Issue :=
  votes.flatMap (checkCert now)

/-- One relay's entry in a vote or consensus (`RouterStatusEntry`), restricted
to the fields `bad_exits_in_sync` reads. -/
structure RouterEntry where
  fingerprint : String
  flags : List String
deriving DecidableEq

/-- A vote or consensus document as `bad_exits_in_sync` reads it: the
fingerprint-indexed `routers` mapping. -/
structure RouterDoc where
  routers : List (String × RouterEntry)
deriving DecidableEq

/-- Fingerprints a vote flags as BadExit, in router order. -/
def flaggedBadExits (v : RouterDoc) : List String :=
  (v.routers.map Prod.snd).filterMap
    (fun d => if d.flags.contains "BadExit" then some d.fingerprint else none)

/-- The `bad_exits` mapping of `bad_exits_in_sync`: only authorities with a
non-empty BadExit list appear. -/
def bad_exits_map (votes : List (String × RouterDoc)) : List (String × List String) :=
  votes.filterMap (fun av =>
    let flagged := flaggedBadExits av.2
    if flagged.isEmpty then none else some (av.1, flagged))

/-- Set intersection over a family of fingerprint sets
(`set.intersection(*values)`), realised on lists. -/
def interAll : List (List String) → List String
  | [] => []
  | xs :: rest => xs.filter (fun x => rest.all (fun ys => ys.contains x))

/-- Set union over a family of fingerprint sets (`set.union(*values)`),
realised on lists with first occurrences kept. -/
def unionAll (sets : List (List String)) : List String :=
  (sets.foldr (fun a b => a ++ b) []).foldl
    (fun acc x => if acc.contains x then acc else acc ++ [x]) []

/-- `bad_exits_in_sync`: among the authorities voting the BadExit flag at all,
every fingerprint flagged by some but not all is a disagreement; a
disagreement is skipped when no disagreeing authority actually carries the
relay in its vote, and when the relay is absent from the latest consensus.
The notice goes to whichever side disagrees with the consensus's own flag. -/
def bad_exits_in_sync (latest : RouterDoc) (votes : List (String × RouterDoc)) : List Issue :=
  let bad_exits := bad_exits_map votes
  if bad_exits.isEmpty then []
  else
    let voting_authorities := bad_exits.map Prod.fst
    let agreed := interAll (bad_exits.map Prod.snd)
    let disagreed := (unionAll (bad_exits.map Prod.snd)).filter
      (fun fp => ¬ agreed.contains fp)
    disagreed.flatMap (fun fingerprint =>
      let with_flag := (bad_exits.filter (fun af => af.2.contains fingerprint)).map Prod.fst
      let others := voting_authorities.filter (fun a => ¬ with_flag.contains a)
      let in_vote := fun a =>
        match lookupKey votes a with
        | some v => (lookupKey v.routers fingerprint).isSome
        | none => false
      let without_flag := others.filter in_vote
      let not_in_vote := others.filter (fun a => ¬ in_vote a)
      if without_flag.isEmpty then []
      else
        match lookupKey latest.routers fingerprint with
        | none => []
        | some desc =>
          let parts := ["with flag: " ++ String.intercalate ", " with_flag]
          let parts := if without_flag.isEmpty then parts
            else parts ++ ["without flag: " ++ String.intercalate ", " without_flag]
          let parts := if not_in_vote.isEmpty then parts
            else parts ++ ["not in vote: " ++ String.intercalate ", " not_in_vote]
          let has_flag_in_consensus := desc.flags.contains "BadExit"
          let notice_for := if has_flag_in_consensus then without_flag else with_flag
          [⟨Runlevel.NOTICE, "BADEXIT_OUT_OF_SYNC",
            [("fingerprint", fingerprint), ("counts", String.intercalate ", " parts)],
            notice_for⟩])

/-- One `shared-rand-commit` record of a vote (stem's
`SharedRandomnessCommitment`): the committing identity, the commit value, and
the reveal value when present. -/
structure Commitment where
  identity : String
  commit : String
  reveal : Option String
deriving DecidableEq

/-- A vote as the shared-random checks read it:
`vote.directory_authorities[0].shared_randomness_commitments` (votes carry a
single directory-authority block). -/
structure VoteDoc where
  shared_randomness_commitments : List Commitment
deriving DecidableEq

/-- The authority registry slice these checks use:
nickname to `DIRECTORY_AUTHORITIES[nickname].v3ident`. -/
abbrev AuthRegistry := List (String × String)

/-- First loop of `shared_random_commit_partitioning`: each authority's
self-reported commitment keyed by its v3ident, in vote order. `none` models
the `KeyError` of an unknown nickname or the `IndexError` of `[...][0]` when
an authority's vote carries no commitment for itself. -/
def self_commitments_loop (auths : AuthRegistry) (acc : List (String × String)) :
    List (String × VoteDoc) → Option (List (String × String))
  | [] => some acc
  | (authority, vote) :: rest =>
    match lookupKey auths authority with
    | none => none
    | some v3ident =>
      match (vote.shared_randomness_commitments.filter
          (fun c => c.identity == v3ident)).map (fun c => c.commit) with
      | [] => none
      | c :: _ => self_commitments_loop auths (setKey acc v3ident c) rest

/-- Second loop of `shared_random_commit_partitioning`: every commitment in
every vote whose identity has a known self-reported commitment must carry the
same commit value; each disagreement is one WARNING issue. -/
def commit_mismatch_issues (selfs : List (String × String))
    (votes : List (String × VoteDoc)) : List Issue :=
  votes.flatMap (fun av =>
    av.2.shared_randomness_commitments.filterMap (fun c =>
      match lookupKey selfs c.identity with
      | none => none
      | some their =>
        if c.commit = their then none
        else some ⟨Runlevel.WARNING, "SHARED_RANDOM_COMMITMENT_MISMATCH",
          [("authority", av.1), ("their_v3ident", c.identity),
           ("our_value", c.commit), ("their_value", their)], [av.1]⟩))

/-- The `issues` list that the body of `shared_random_commit_partitioning`
builds (and, in the source, never returns). -/
def shared_random_commit_built (auths : AuthRegistry)
    (votes : List (String × VoteDoc)) : Option (List Issue) :=
  match self_commitments_loop auths [] votes with
  | none => none
  | some selfs => some (commit_mismatch_issues selfs votes)

/-- `shared_random_commit_partitioning` as callers observe it: outside the
08:00 to 12:00 UTC window the function returns early with no issues; inside
the window it computes its `issues` list but the function body ends without a
return statement, so the caller receives `None` (no issues contributed) —
contrary to the `run_checks` docstring, which expects every checker to return
its Issue list. An exception inside the body still propagates (`none`). -/
def shared_random_commit_partitioning (utc_hour : Nat) (auths : AuthRegistry)
    (votes : List (String × VoteDoc)) : Option (List Issue) :=
  if utc_hour < 8 ∨ 12 ≤ utc_hour then some []
  else
    match shared_random_commit_built auths votes with
    | none => none
    | some _ => some []

/-- Python string interpolation of a possibly-`None` reveal value. -/
def optStr : Option String → String
  | none => "None"
  | some s => s

/-- First loop of `shared_random_reveal_partitioning`: collects the issues for
authorities with no reveal (no commitment entry for themselves) or several
reveal entries, and the self-reveal mapping for the rest, in vote order. -/
def self_reveals_loop (auths : AuthRegistry)
    (acc : List Issue × List (String × Option String)) :
    List (String × VoteDoc) → Option (List Issue × List (String × Option String))
  | [] => some acc
  | (authority, vote) :: rest =>
    match lookupKey auths authority with
    | none => none
    | some v3ident =>
      match (vote.shared_randomness_commitments.filter
          (fun c => c.identity == v3ident)).map (fun c => c.reveal) with
      | [] =>
        self_reveals_loop auths
          (acc.1 ++ [⟨Runlevel.WARNING, "SHARED_RANDOM_NO_REVEAL",
            [("authority", authority)], [authority]⟩], acc.2) rest
      | [r] => self_reveals_loop auths (acc.1, setKey acc.2 v3ident r) rest
      | rs =>
        self_reveals_loop auths
          (acc.1 ++ [⟨Runlevel.WARNING, "SHARED_RANDOM_MULTIPLE_REVEAL",
            [("authority", authority), ("count", toString rs.length)], [authority]⟩],
           acc.2) rest

/-- Second loop of `shared_random_reveal_partitioning`: for every vote and
every known self-reveal, classify how often the vote echoes that identity.
The source tests `len(echoed) > 0` for the duplicate case (rather than
`> 1`), which also captures a single echo and makes the mismatch branch
below it unreachable; both branches are reproduced as written. -/
def reveal_peer_issues (selfs : List (String × Option String))
    (votes : List (String × VoteDoc)) : List Issue :=
  votes.flatMap (fun av =>
    let commitments := av.2.shared_randomness_commitments
    selfs.flatMap (fun vr =>
      let echoed := (commitments.filter (fun c => c.identity == vr.1)).map
        (fun c => c.reveal)
      if echoed.length = 0 then
        [⟨Runlevel.WARNING, "SHARED_RANDOM_REVEAL_MISSING",
          [("authority", av.1), ("their_v3ident", vr.1), ("their_value", optStr vr.2)],
          [av.1]⟩]
      else if 0 < echoed.length then
        [⟨Runlevel.WARNING, "SHARED_RANDOM_REVEAL_DUPLICATED",
          [("authority", av.1), ("their_v3ident", vr.1)], [av.1]⟩]
      else if echoed.headD none ≠ vr.2 then
        [⟨Runlevel.WARNING, "SHARED_RANDOM_REVEAL_MISMATCH",
          [("authority", av.1), ("their_v3ident", vr.1),
           ("our_value", optStr (echoed.headD none)), ("their_value", optStr vr.2)],
          [av.1]⟩]
      else []))

/-- The `issues` list that the body of `shared_random_reveal_partitioning`
builds (and, in the source, never returns). -/
def shared_random_reveal_built (auths : AuthRegistry)
    (votes : List (String × VoteDoc)) : Option (List Issue) :=
  match self_reveals_loop auths ([], []) votes with
  | none => none
  | some fstLoop => some (fstLoop.1 ++ reveal_peer_issues fstLoop.2 votes)

/-- `shared_random_reveal_partitioning` as callers observe it: before
20:00 UTC the function returns early with no issues; afterwards it computes
its `issues` list but the function body ends without a return statement, so
the caller receives `None` (no issues contributed). An exception inside the
body still propagates (`none`). -/
def shared_random_reveal_partitioning (utc_hour : Nat) (auths : AuthRegistry)
    (votes : List (String × VoteDoc)) : Option (List Issue) :=
  if utc_hour < 20 then some []
  else
    match shared_random_reveal_built auths votes with
    | none => none
    | some _ => some []

/-- Helper: the suppression scan of `main` reports `some false` as soon as the
issue list contains a non-suppressed issue, provided no earlier check raises. -/
theorem not_all_suppressed_of_mem (cfg : Config) (store : Store) (now : Int) :
    ∀ (issues : List Issue),
      (∀ i ∈ issues, is_rate_limited cfg store now i ≠ none) →
      (∃ i ∈ issues, is_rate_limited cfg store now i = some false) →
      is_all_suppressed cfg store now issues = some false := by
  intro issues
  induction issues with
  | nil =>
    intro _ hex
    obtain ⟨i, hi, _⟩ := hex
    exact absurd hi (List.not_mem_nil i)
  | cons a rest ih =>
    intro hok hex
    cases h : is_rate_limited cfg store now a with
    | none => exact absurd h (hok a (List.mem_cons_self a rest))
    | some b =>
      cases b with
      | false => simp [is_all_suppressed, h]
      | true =>
        have hrest : is_all_suppressed cfg store now rest = some false := by
          apply ih
          · exact fun i hi => hok i (List.mem_cons_of_mem a hi)
          · obtain ⟨i, hi, hf⟩ := hex
            rcases List.mem_cons.mp hi with heq | hmem
            · rw [heq] at hf
              rw [h] at hf
              simp at hf
            · exact ⟨i, hmem, hf⟩
        simp [is_all_suppressed, h, hrest]

/-- Claim C1, counterexample: a cycle with a suppressed NOTICE issue and a
surviving ERROR issue sends a notification whose body still contains the
suppressed issue's text ("first issue"), so the body is not restricted to the
surviving issues. -/
theorem C1_counterexample :
    is_rate_limited ⟨[("T1", [Fmt.lit "first issue"]), ("T2", [Fmt.lit "second issue"])], []⟩
      [("first_issue", 1000)] 1000 ⟨Runlevel.NOTICE, "T1", [], []⟩ = some true ∧
    notification_body ⟨[("T1", [Fmt.lit "first issue"]), ("T2", [Fmt.lit "second issue"])], []⟩
      [("first_issue", 1000)] 1000
      [⟨Runlevel.NOTICE, "T1", [], []⟩, ⟨Runlevel.ERROR, "T2", [], []⟩]
      = some "NOTICE: first issue\nERROR: second issue" := ⟨rfl, rfl⟩

/-- Claim C1 as amended: whenever at least one issue of the cycle is not
suppressed (and no suppression check raises), the notification is composed
from the entire issue list — suppressed issues included; suppression only
decides whether any message is sent at all. -/
theorem C1_amended_body_has_all (cfg : Config) (store : Store) (now : Int)
    (issues : List Issue)
    (hok : ∀ i ∈ issues, is_rate_limited cfg store now i ≠ none)
    (hsome : ∃ i ∈ issues, is_rate_limited cfg store now i = some false) :
    surviving_notification cfg store now issues = some issues := by
  simp [surviving_notification, not_all_suppressed_of_mem cfg store now issues hok hsome]

/-- Witness for the amended C1 at a concrete suppressed/unsuppressed pair. -/
theorem C1_amended_body_has_all_witness :
    surviving_notification
      ⟨[("T1", [Fmt.lit "first issue"]), ("T2", [Fmt.lit "second issue"])], []⟩
      [("first_issue", 1000)] 1000
      [⟨Runlevel.NOTICE, "T1", [], []⟩, ⟨Runlevel.ERROR, "T2", [], []⟩]
      = some [⟨Runlevel.NOTICE, "T1", [], []⟩, ⟨Runlevel.ERROR, "T2", [], []⟩] :=
  C1_amended_body_has_all _ _ _ _ (by decide) (by decide)

/-- Claim C2, counterexample: with a first checker that raises and a second
that returns an issue, the rule engine loop propagates the exception; the
second rule's issue is lost and no synthetic issue is produced. -/
theorem C2_counterexample :
    run_checks_loop (α := Unit)
      [fun _ => Except.error "KeyError",
       fun _ => Except.ok [⟨Runlevel.NOTICE, "T", [], []⟩]] ()
      = Except.error "KeyError" := rfl

/-- Claim C2 as amended: an exception raised by any rule propagates out of
`run_checks` unchanged, aborting the remaining rules and discarding all issues
collected so far; no synthetic issue is produced (the exception is only caught
by the process-level handler). -/
theorem C2_amended_error_propagates {α : Type} (docs : α) (e : String)
    (pre rest : List (α → Except String (List Issue)))
    (c : α → Except String (List Issue))
    (hpre : ∀ f ∈ pre, ∃ ok, f docs = Except.ok ok)
    (hc : c docs = Except.error e) :
    run_checks_loop (pre ++ c :: rest) docs = Except.error e := by
  induction pre with
  | nil => simp [run_checks_loop, hc]
  | cons f fs ih =>
    obtain ⟨ok, hf⟩ := hpre f (List.mem_cons_self f fs)
    have ih' := ih (fun g hg => hpre g (List.mem_cons_of_mem f hg))
    simp [run_checks_loop, hf, ih']

/-- Witness for the amended C2: a succeeding rule, then a raising rule, then a
further rule; the loop result is the propagated error. -/
theorem C2_amended_error_propagates_witness :
    run_checks_loop (α := Unit)
      [fun _ => Except.ok [], fun _ => Except.error "boom",
       fun _ => Except.ok [⟨Runlevel.NOTICE, "T", [], []⟩]] ()
      = Except.error "boom" :=
  C2_amended_error_propagates () "boom" [fun _ => Except.ok []]
    [fun _ => Except.ok [⟨Runlevel.NOTICE, "T", [], []⟩]] (fun _ => Except.error "boom")
    (by
      intro f hf
      simp only [List.mem_singleton] at hf
      subst hf
      exact ⟨[], rfl⟩)
    rfl

/-- Claim C3 (the commit-partition check): at UTC hour 9 with gabelmoo's vote
echoing a commitment for moria1's identity ("cX") that differs from moria1's
self-reported one ("cA"), the function body builds exactly the one WARNING
mismatch issue the claim describes — but the function has no return statement,
so callers receive no issues at hour 9, just as at hour 14. -/
theorem C3_commit_mismatch_not_returned :
    shared_random_commit_built [("moria1", "idA"), ("gabelmoo", "idB")]
      [("moria1", ⟨[⟨"idA", "cA", none⟩, ⟨"idB", "cB", none⟩]⟩),
       ("gabelmoo", ⟨[⟨"idB", "cB", none⟩, ⟨"idA", "cX", none⟩]⟩)]
      = some [⟨Runlevel.WARNING, "SHARED_RANDOM_COMMITMENT_MISMATCH",
          [("authority", "gabelmoo"), ("their_v3ident", "idA"),
           ("our_value", "cX"), ("their_value", "cA")], ["gabelmoo"]⟩] ∧
    shared_random_commit_partitioning 9 [("moria1", "idA"), ("gabelmoo", "idB")]
      [("moria1", ⟨[⟨"idA", "cA", none⟩, ⟨"idB", "cB", none⟩]⟩),
       ("gabelmoo", ⟨[⟨"idB", "cB", none⟩, ⟨"idA", "cX", none⟩]⟩)] = some [] ∧
    shared_random_commit_partitioning 14 [("moria1", "idA"), ("gabelmoo", "idB")]
      [("moria1", ⟨[⟨"idA", "cA", none⟩, ⟨"idB", "cB", none⟩]⟩),
       ("gabelmoo", ⟨[⟨"idB", "cB", none⟩, ⟨"idA", "cX", none⟩]⟩)] = some [] :=
  ⟨rfl, rfl, rfl⟩

/-- Claim C4 (the reveal-partition check): with two authorities each holding
exactly one self-reveal and each peer echoing it exactly once with the same
value, the function body still builds a spurious duplicate issue for every
echo (the source tests `len(echoed) > 0` instead of `> 1`, so the mismatch
branch is dead); echoing a different value builds the very same issues; and in
any case the function has no return statement, so callers receive no issues
after hour 20, just as before it. -/
theorem C4_reveal_classification_broken :
    shared_random_reveal_built [("moria1", "idA"), ("gabelmoo", "idB")]
      [("moria1", ⟨[⟨"idA", "cA", some "rA"⟩, ⟨"idB", "cB", some "rB"⟩]⟩),
       ("gabelmoo", ⟨[⟨"idB", "cB", some "rB"⟩, ⟨"idA", "cA", some "rA"⟩]⟩)]
      = some [⟨Runlevel.WARNING, "SHARED_RANDOM_REVEAL_DUPLICATED",
          [("authority", "moria1"), ("their_v3ident", "idA")], ["moria1"]⟩,
         ⟨Runlevel.WARNING, "SHARED_RANDOM_REVEAL_DUPLICATED",
          [("authority", "moria1"), ("their_v3ident", "idB")], ["moria1"]⟩,
         ⟨Runlevel.WARNING, "SHARED_RANDOM_REVEAL_DUPLICATED",
          [("authority", "gabelmoo"), ("their_v3ident", "idA")], ["gabelmoo"]⟩,
         ⟨Runlevel.WARNING, "SHARED_RANDOM_REVEAL_DUPLICATED",
          [("authority", "gabelmoo"), ("their_v3ident", "idB")], ["gabelmoo"]⟩] ∧
    shared_random_reveal_built [("moria1", "idA"), ("gabelmoo", "idB")]
      [("moria1", ⟨[⟨"idA", "cA", some "rA"⟩, ⟨"idB", "cB", some "rB"⟩]⟩),
       ("gabelmoo", ⟨[⟨"idB", "cB", some "rB"⟩, ⟨"idA", "cA", some "rX"⟩]⟩)]
      = shared_random_reveal_built [("moria1", "idA"), ("gabelmoo", "idB")]
      [("moria1", ⟨[⟨"idA", "cA", some "rA"⟩, ⟨"idB", "cB", some "rB"⟩]⟩),
       ("gabelmoo", ⟨[⟨"idB", "cB", some "rB"⟩, ⟨"idA", "cA", some "rA"⟩]⟩)] ∧
    shared_random_reveal_partitioning 21 [("moria1", "idA"), ("gabelmoo", "idB")]
      [("moria1", ⟨[⟨"idA", "cA", some "rA"⟩, ⟨"idB", "cB", some "rB"⟩]⟩),
       ("gabelmoo", ⟨[⟨"idB", "cB", some "rB"⟩, ⟨"idA", "cA", some "rA"⟩]⟩)] = some [] ∧
    shared_random_reveal_partitioning 19 [("moria1", "idA"), ("gabelmoo", "idB")]
      [("moria1", ⟨[⟨"idA", "cA", some "rA"⟩, ⟨"idB", "cB", some "rB"⟩]⟩),
       ("gabelmoo", ⟨[⟨"idB", "cB", some "rB"⟩, ⟨"idA", "cA", some "rA"⟩]⟩)] = some [] :=
  ⟨rfl, rfl, rfl, rfl⟩

/-- Claim C5, counterexample: a NOTICE issue whose template has the
unparseable configured duration "often" is still reported as suppressed when
its key was recently notified, because the duration falls back to the NOTICE
default of 24 hours rather than "not suppressed". -/
theorem C5_counterexample :
    lookupKey (Config.mk [("TPL", [Fmt.lit "hello world"])] [("TPL", "often")]).suppression
      "TPL" = some "often" ∧
    pyInt "often" = none ∧
    is_rate_limited ⟨[("TPL", [Fmt.lit "hello world"])], [("TPL", "often")]⟩
      [("hello_world", 1000)] 1000 ⟨Runlevel.NOTICE, "TPL", [], []⟩ = some true :=
  ⟨rfl, rfl, rfl⟩

/-- Claim C5 as amended: a configured per-template duration that does not
parse as an integer is logged and ignored, and the issue's suppression
duration falls back to the severity default (NOTICE 24h, WARNING 4h, ERROR 0);
the issue is therefore treated as not suppressed only when that default is
zero. -/
theorem C5_amended_default_duration (cfg : Config) (i : Issue) (raw : String)
    (hconf : lookupKey cfg.suppression i.template = some raw)
    (hbad : pyInt raw = none) :
    get_suppression_duration cfg i = defaultDuration i.runlevel := by
  simp [get_suppression_duration, hconf, hbad]

/-- Witness for the amended C5 at a concrete corrupt configuration. -/
theorem C5_amended_default_duration_witness :
    get_suppression_duration ⟨[], [("TPL", "often")]⟩ ⟨Runlevel.NOTICE, "TPL", [], []⟩ = 24 :=
  C5_amended_default_duration ⟨[], [("TPL", "often")]⟩ ⟨Runlevel.NOTICE, "TPL", [], []⟩
    "often" rfl rfl

/-- Claim C6: a zero suppression duration means the issue is never reported as
suppressed and `rate_limit_notice` leaves the store untouched; a non-zero
duration issue that is not suppressed gets the current timestamp recorded
under its key. (The hypothesis names the issue's suppression key, i.e. the key
computation does not raise.) -/
theorem C6_zero_duration_never_persisted (cfg : Config) (store : Store) (now : Int)
    (i : Issue) (k : String)
    (hk : get_suppression_key cfg i = some k) :
    (get_suppression_duration cfg i = 0 →
      is_rate_limited cfg store now i = some false ∧
      rate_limit_notice cfg store now i = some store) ∧
    (get_suppression_duration cfg i ≠ 0 →
      is_rate_limited cfg store now i = some false →
      rate_limit_notice cfg store now i = some (setKey store k now)) := by
  constructor
  · intro h0
    constructor
    · simp [is_rate_limited, hk, h0]
    · simp [rate_limit_notice, hk, h0]
  · intro hne _
    simp [rate_limit_notice, hk, hne]

/-- Witness for C6: an ERROR issue (duration 0) is not suppressed and not
persisted; a non-suppressed NOTICE issue gets its timestamp recorded. -/
theorem C6_zero_duration_never_persisted_witness :
    (is_rate_limited ⟨[("E", [Fmt.lit "err msg"])], []⟩ [] 1000000
        ⟨Runlevel.ERROR, "E", [], []⟩ = some false ∧
      rate_limit_notice ⟨[("E", [Fmt.lit "err msg"])], []⟩ [] 1000000
        ⟨Runlevel.ERROR, "E", [], []⟩ = some []) ∧
    rate_limit_notice ⟨[("N", [Fmt.lit "notice msg"])], []⟩ [] 1000000
      ⟨Runlevel.NOTICE, "N", [], []⟩ = some [("notice_msg", 1000000)] :=
  ⟨(C6_zero_duration_never_persisted ⟨[("E", [Fmt.lit "err msg"])], []⟩ [] 1000000
      ⟨Runlevel.ERROR, "E", [], []⟩ "err_msg" rfl).1 rfl,
   (C6_zero_duration_never_persisted ⟨[("N", [Fmt.lit "notice msg"])], []⟩ [] 1000000
      ⟨Runlevel.NOTICE, "N", [], []⟩ "notice_msg" rfl).2 (by decide) rfl⟩

/-- Claim C7: the suppression key of a `TOO_MANY_UNMEASURED_RELAYS` issue for
a given authority does not depend on the volatile `unmeasured`/`total`/
`percentage` parameters, and re-deriving it from a freshly constructed issue
with the same stable parameters yields the same key, for every message
configuration. -/
theorem C7_suppression_key_stable (cfg : Config) (a : String)
    (u1 t1 p1 u2 t2 p2 : Nat) :
    get_suppression_key cfg (mkUnmeasuredIssue a u1 t1 p1) =
    get_suppression_key cfg (mkUnmeasuredIssue a u2 t2 p2) := rfl

/-- Claim C8: the certificate-expiry check classifies each vote's certificate
by its distance to expiry, narrowest window first — within 7 days a WARNING
labelled "week", within 14 days a WARNING labelled "two weeks", within 21 days
a NOTICE labelled "three weeks", beyond that nothing — and the full check is
exactly the concatenation of these per-vote classifications. -/
theorem C8_certificate_tiers (now : Int) (votes : List (String × Int))
    (a : String) (e : Int) :
    certificate_expiration now votes = votes.flatMap (checkCert now) ∧
    (e - now ≤ 7 * daySecs →
      checkCert now (a, e) = [⟨Runlevel.WARNING, "CERTIFICATE_ABOUT_TO_EXPIRE",
        [("duration", "week"), ("authority", a ++ " (" ++ toString e ++ ")")], [a]⟩]) ∧
    (7 * daySecs < e - now → e - now ≤ 14 * daySecs →
      checkCert now (a, e) = [⟨Runlevel.WARNING, "CERTIFICATE_ABOUT_TO_EXPIRE",
        [("duration", "two weeks"), ("authority", a ++ " (" ++ toString e ++ ")")], [a]⟩]) ∧
    (14 * daySecs < e - now → e - now ≤ 21 * daySecs →
      checkCert now (a, e) = [⟨Runlevel.NOTICE, "CERTIFICATE_ABOUT_TO_EXPIRE",
        [("duration", "three weeks"), ("authority", a ++ " (" ++ toString e ++ ")")], [a]⟩]) ∧
    (21 * daySecs < e - now → checkCert now (a, e) = []) := by
  refine ⟨rfl, ?_, ?_, ?_, ?_⟩
  · intro h1
    simp [checkCert, h1]
  · intro h1 h2
    simp [checkCert, not_le.mpr h1, h2]
  · intro h1 h2
    have h7 : ¬ (e - now ≤ 7 * daySecs) := by
      simp only [daySecs] at h1 ⊢
      omega
    simp [checkCert, h7, not_le.mpr h1, h2]
  · intro h
    have h7 : ¬ (e - now ≤ 7 * daySecs) := by
      simp only [daySecs] at h ⊢
      omega
    have h14 : ¬ (e - now ≤ 14 * daySecs) := by
      simp only [daySecs] at h ⊢
      omega
    simp [checkCert, h7, h14, not_le.mpr h]

/-- Witness for C8, matching the spec's examples: expiry in 5, 10, 20 and 30
days from now. -/
theorem C8_certificate_tiers_witness :
    certificate_expiration 0 [("moria1", 5 * daySecs)]
      = [⟨Runlevel.WARNING, "CERTIFICATE_ABOUT_TO_EXPIRE",
          [("duration", "week"), ("authority", "moria1" ++ " (" ++ toString (5 * daySecs) ++ ")")],
          ["moria1"]⟩] ∧
    checkCert 0 ("moria1", 10 * daySecs)
      = [⟨Runlevel.WARNING, "CERTIFICATE_ABOUT_TO_EXPIRE",
          [("duration", "two weeks"),
           ("authority", "moria1" ++ " (" ++ toString (10 * daySecs) ++ ")")], ["moria1"]⟩] ∧
    checkCert 0 ("moria1", 20 * daySecs)
      = [⟨Runlevel.NOTICE, "CERTIFICATE_ABOUT_TO_EXPIRE",
          [("duration", "three weeks"),
           ("authority", "moria1" ++ " (" ++ toString (20 * daySecs) ++ ")")], ["moria1"]⟩] ∧
    checkCert 0 ("moria1", 30 * daySecs) = [] :=
  ⟨by
      rw [(C8_certificate_tiers 0 [("moria1", 5 * daySecs)] "moria1" (5 * daySecs)).1]
      exact congrArg (fun l => l ++ []) ((C8_certificate_tiers 0 [] "moria1" (5 * daySecs)).2.1
        (by decide)),
   (C8_certificate_tiers 0 [] "moria1" (10 * daySecs)).2.2.1 (by decide) (by decide),
   (C8_certificate_tiers 0 [] "moria1" (20 * daySecs)).2.2.2.1 (by decide) (by decide),
   (C8_certificate_tiers 0 [] "moria1" (30 * daySecs)).2.2.2.2 (by decide)⟩

/-- Claim C9: in the BadExit-partition check, when moria1 flags X (which the
latest consensus carries unflagged) and gabelmoo and longclaw carry X
unflagged in their votes (all three vote the BadExit flag, agreeing on Y), the
one resulting NOTICE targets moria1, the minority against the consensus;
dropping X from the consensus suppresses the issue, and so does the
disagreement existing only through votes that do not carry X at all. -/
theorem C9_bad_exits_minority :
    bad_exits_in_sync ⟨[("X", ⟨"X", []⟩), ("Y", ⟨"Y", ["BadExit"]⟩)]⟩
      [("moria1", ⟨[("X", ⟨"X", ["BadExit"]⟩), ("Y", ⟨"Y", ["BadExit"]⟩)]⟩),
       ("gabelmoo", ⟨[("X", ⟨"X", []⟩), ("Y", ⟨"Y", ["BadExit"]⟩)]⟩),
       ("longclaw", ⟨[("X", ⟨"X", []⟩), ("Y", ⟨"Y", ["BadExit"]⟩)]⟩)]
      = [⟨Runlevel.NOTICE, "BADEXIT_OUT_OF_SYNC",
          [("fingerprint", "X"),
           ("counts", "with flag: moria1, without flag: gabelmoo, longclaw")],
          ["moria1"]⟩] ∧
    bad_exits_in_sync ⟨[("Y", ⟨"Y", ["BadExit"]⟩)]⟩
      [("moria1", ⟨[("X", ⟨"X", ["BadExit"]⟩), ("Y", ⟨"Y", ["BadExit"]⟩)]⟩),
       ("gabelmoo", ⟨[("X", ⟨"X", []⟩), ("Y", ⟨"Y", ["BadExit"]⟩)]⟩),
       ("longclaw", ⟨[("X", ⟨"X", []⟩), ("Y", ⟨"Y", ["BadExit"]⟩)]⟩)] = [] ∧
    bad_exits_in_sync ⟨[("X", ⟨"X", []⟩), ("Y", ⟨"Y", ["BadExit"]⟩)]⟩
      [("moria1", ⟨[("X", ⟨"X", ["BadExit"]⟩), ("Y", ⟨"Y", ["BadExit"]⟩)]⟩),
       ("gabelmoo", ⟨[("Y", ⟨"Y", ["BadExit"]⟩)]⟩),
       ("longclaw", ⟨[("Y", ⟨"Y", ["BadExit"]⟩)]⟩)] = [] :=
  ⟨rfl, rfl, rfl⟩

/-- Claim C10: a fetch-failure issue is constructed with ERROR severity, so
without a configured `AUTHORITY_UNAVAILABLE` suppression override its duration
is 0; it is therefore never reported as suppressed and never written to the
last-notified store — fetch failures surface on every cycle. -/
theorem C10_fetch_failures_never_suppressed (cfg : Config) (store : Store) (now : Int)
    (fetch_type authority url err : String)
    (hconf : lookupKey cfg.suppression "AUTHORITY_UNAVAILABLE" = none) :
    (mkAuthorityUnavailable fetch_type authority url err).runlevel = Runlevel.ERROR ∧
    get_suppression_duration cfg (mkAuthorityUnavailable fetch_type authority url err) = 0 ∧
    is_rate_limited cfg store now (mkAuthorityUnavailable fetch_type authority url err)
      = some false ∧
    rate_limit_notice cfg store now (mkAuthorityUnavailable fetch_type authority url err)
      = some store := by
  have hdur : get_suppression_duration cfg
      (mkAuthorityUnavailable fetch_type authority url err) = 0 := by
    simp [get_suppression_duration, mkAuthorityUnavailable, hconf, defaultDuration]
  have hkey : get_suppression_key cfg (mkAuthorityUnavailable fetch_type authority url err)
      = some (underscore (get_message cfg
          (mkAuthorityUnavailable fetch_type authority url err))) := rfl
  exact ⟨rfl, hdur, by simp [is_rate_limited, hkey, hdur],
    by simp [rate_limit_notice, hkey, hdur]⟩

/-- Witness for C10 with an empty configuration and store. -/
theorem C10_fetch_failures_never_suppressed_witness :
    (mkAuthorityUnavailable "vote" "moria1" "http://x" "timeout").runlevel = Runlevel.ERROR ∧
    get_suppression_duration ⟨[], []⟩
      (mkAuthorityUnavailable "vote" "moria1" "http://x" "timeout") = 0 ∧
    is_rate_limited ⟨[], []⟩ [] 1000
      (mkAuthorityUnavailable "vote" "moria1" "http://x" "timeout") = some false ∧
    rate_limit_notice ⟨[], []⟩ [] 1000
      (mkAuthorityUnavailable "vote" "moria1" "http://x" "timeout") = some [] :=
  C10_fetch_failures_never_suppressed ⟨[], []⟩ [] 1000 "vote" "moria1" "http://x" "timeout" rfl

end ConsensusHealth
